import Mathlib

/-!
Verification development for the batch media acquisition-and-embedding
pipeline in `batch_extract_from_urls.py` (repository check-tvc).

Strings are modelled as `List Char`; the network, the media decoders and
the external embedding provider are modelled as explicit environment
parameters, so every pipeline function is a total Lean function of the
source code's control flow.
-/

namespace CheckTvc

/-- `startsList sub s` is true when `sub` is an initial segment of `s`
(helper for Python's substring operator). -/
def startsList : List Char → List Char → Bool
  | [], _ => true
  | _ :: _, [] => false
  | a :: as, b :: bs => a == b && startsList as bs

/-- `occursIn sub s` models Python's `sub in s` substring test. -/
def occursIn (sub : List Char) : List Char → Bool
  | [] => sub.isEmpty
  | b :: t => startsList sub (b :: t) || occursIn sub t

/-- Python `str.lower()`. -/
def lowerStr (s : List Char) : List Char := s.map Char.toLower

/-- Python `str.strip()`: drop whitespace from both ends. -/
def stripWS (s : List Char) : List Char :=
  ((s.dropWhile Char.isWhitespace).reverse.dropWhile Char.isWhitespace).reverse

/-- The media-type enum persisted in `media_type.txt`. -/
inductive MediaType
  | image
  | video
deriving DecidableEq

/-- `image_exts` from `detect_media_type` (source lines 51). -/
def imageExts : List (List Char) :=
  [".jpg".data, ".jpeg".data, ".png".data, ".gif".data, ".bmp".data,
   ".webp".data, ".svg".data, ".tiff".data, ".tif".data]

/-- `video_exts` from `detect_media_type` (source line 52). -/
def videoExts : List (List Char) :=
  [".mp4".data, ".mov".data, ".avi".data, ".mkv".data, ".webm".data,
   ".flv".data, ".wmv".data, ".m4v".data, ".3gp".data]

/-- `url.lower().split('?')[0].split('#')[0]` (source line 55): the
lower-cased URL with query and fragment stripped. -/
def pathPart (url : List Char) : List Char :=
  ((lowerStr url).takeWhile (fun c => c != '?')).takeWhile (fun c => c != '#')

/-- `any(ext in path_part for ext in exts)` -/
def extHit (exts : List (List Char)) (p : List Char) : Bool :=
  exts.any (fun e => occursIn e p)

/-- `any(t in content_type for t in ['image/', 'image'])` (source lines 68, 89). -/
def imageToken (ct : List Char) : Bool :=
  occursIn "image/".data ct || occursIn "image".data ct

/-- `any(t in content_type for t in ['video/', 'video'])` (source lines 70, 91). -/
def videoToken (ct : List Char) : Bool :=
  occursIn "video/".data ct || occursIn "video".data ct

/-- `detect_media_type(url)` (source lines 47-76).  The HEAD probe is an
environment parameter: `none` means the probe raised (any exception in the
`try` block), `some ct` means it answered with Content-Type header `ct`
(a missing header is `some []`, matching `headers.get('Content-Type','')`). -/
def detect_media_type (probe : Option (List Char)) (url : List Char) : MediaType :=
  let p := pathPart url
  if extHit imageExts p then MediaType.image
  else if extHit videoExts p then MediaType.video
  else
    match probe with
    | none => MediaType.video
    | some ct =>
      let ctl := lowerStr ct
      if imageToken ctl then MediaType.image
      else if videoToken ctl then MediaType.video
      else MediaType.video

/-- True when `detect_media_type` reaches the network-probe stage, i.e.
no extension matched (the probe at source lines 63-73 is only executed
on this fall-through path). -/
def probeReached (url : List Char) : Bool :=
  !extHit imageExts (pathPart url) && !extHit videoExts (pathPart url)

/-- Outcome of the primary transport (`requests.get` with streaming,
source lines 84-101): `ok` carries the Content-Type header and the body
bytes; `exc` is any exception raised anywhere inside the `try` block
(connect error, non-2xx via `raise_for_status`, stream error, ...). -/
inductive PrimaryResult
  | ok (contentType : List Char) (body : List Nat)
  | exc (msg : List Char)
deriving DecidableEq

/-- The network environment for one URL: HEAD-probe answer, primary
transport outcome, and what the secondary (urllib) transport would
return if it were consulted (`some body` success, `none` exception). -/
structure Net where
  probe : Option (List Char)
  primary : PrimaryResult
  secondary : Option (List Nat)
deriving DecidableEq

/-- Result of `download_file`: the media type, the error (`none` on
success) and the bytes written to the destination path. -/
structure FetchResult where
  mediaType : MediaType
  error : Option (List Char)
  written : Option (List Nat)
deriving DecidableEq

/-- `download_file(url, dest)` (source lines 79-121).  Faithful to the
source: the whole requests-based attempt sits in one `try` whose `except`
clause returns `(detect_media_type(url), str(e))`, so both branches of
the function's first statement return and the `# Fallback urllib` block
at lines 108-121 is unreachable — `net.secondary` is never consulted. -/
def download_file (net : Net) (url : List Char) : FetchResult :=
  match net.primary with
  | PrimaryResult.ok ct body =>
    let ctl := lowerStr ct
    let mt :=
      if imageToken ctl then MediaType.image
      else if videoToken ctl then MediaType.video
      else detect_media_type net.probe url
    ⟨mt, none, some body⟩
  | PrimaryResult.exc msg =>
    ⟨detect_media_type net.probe url, some msg, none⟩

/-- One CSV row: ordered association list of column name to cell value,
modelling the `dict` produced by `csv.DictReader`. -/
abbrev Row := List (List Char × List Char)

/-- First cell value of a row: `list(row.values())[0] if row else ""`. -/
def firstVal : Row → List Char
  | [] => []
  | (_, v) :: _ => v

/-- The URL selection shared by `read_urls` (source lines 33-40) and
`process_url` (source lines 126-132): if a column name is given, truthy
and present in the row, take (and strip) that cell, else fall back to
the stripped first cell. -/
def pickUrl (row : Row) (col : Option (List Char)) : List Char :=
  match col with
  | some c =>
    if !c.isEmpty && (row.lookup c).isSome then stripWS ((row.lookup c).getD [])
    else stripWS (firstVal row)
  | none => stripWS (firstVal row)

/-- `read_urls(csv_path, column)` (source lines 27-44), applied to the
already-parsed rows: keep exactly the rows whose selected URL cell is
non-empty after stripping (`if url: rows.append(row)`). -/
def read_urls (raws : List Row) (col : Option (List Char)) : List Row :=
  raws.filter (fun r => !(pickUrl r col).isEmpty)

/-- `f"url_{index:04d}"` (source line 137): zero-pad to width four. -/
def jobId (i : Nat) : List Char :=
  let d := (Nat.repr i).data
  "url_".data ++ List.replicate (4 - d.length) '0' ++ d

/-- The persisted state of one job directory.  `dirCreated` records
`ensure_dir(job_dir)`.  Modelled from the spec: `ensure_dir` is imported
from the `app` module, which is not among the source files; per the spec
it is an idempotent create-if-absent directory operation.  Each artifact
field is `none` when the file is absent. `metadata_txt` holds the
key=value lines as an association list. -/
structure JobFS where
  dirCreated : Bool
  url_txt : Option (List Char)
  metadata_txt : Option Row
  media_type_txt : Option MediaType
  first_frame_npy : Option (List Nat)
deriving DecidableEq

/-- Events of one `process_url` run, in the order they would hit the
filesystem or the network. -/
inductive Ev
  | mkdir
  | removeEmbed
  | removeUrl
  | removeMeta
  | removeMediaType
  | writeUrl
  | writeMeta
  | downloadStart
  | writeMediaType
  | writeEmbed
deriving DecidableEq

/-- Outcome of the image branch (source lines 211-221): `PIL` open /
convert / save either raises (`image_process_error`) or succeeds. -/
inductive ImageOutcome
  | exc (msg : List Char)
  | ok
deriving DecidableEq

/-- Outcome of the video branch (source lines 222-239): decoder fails to
open, first frame unreadable, an exception during the stage, or success. -/
inductive VideoOutcome
  | openFail
  | readFail
  | exc (msg : List Char)
  | ok
deriving DecidableEq

/-- Outcome of the embedding call (source lines 242-245).  Modelled from
the spec: `embed_image_clip_to_npy` is imported from the `app` module,
which is not among the source files; per the spec it persists the
resulting vector at the output path and any provider exception is
translated to `embed_error`.  `ok bytes` are the artifact bytes written
at `first_frame.npy`. -/
inductive EmbedOutcome
  | exc (msg : List Char)
  | ok (bytes : List Nat)
deriving DecidableEq

/-- The full external environment one row's processing interacts with. -/
structure Env where
  net : Net
  img : ImageOutcome
  vid : VideoOutcome
  emb : EmbedOutcome
deriving DecidableEq

/-- The `(job_id, num_frames, err)` triple returned by `process_url`. -/
structure RowResult where
  jid : List Char
  frames : Nat
  err : Option (List Char)
deriving DecidableEq

/-- Overwrite cleanup (source lines 145-165): best-effort removal of the
four artifacts. -/
def clearArtifacts (fs : JobFS) : JobFS :=
  { fs with first_frame_npy := none, url_txt := none,
            metadata_txt := none, media_type_txt := none }

/-- The `metadata.txt` content (source lines 176-179): every row entry
whose key differs from the URL column name. -/
def metaLines (row : Row) (col : Option (List Char)) : Row :=
  row.filter (fun kv => !(col == some kv.1))

/-- Frame stage of `process_url` (source lines 209-239): `none` on
success, `some reason` on failure, dispatching on the settled media type. -/
def frameStage (env : Env) (mt : MediaType) : Option (List Char) :=
  match mt with
  | MediaType.image =>
    match env.img with
    | ImageOutcome.exc m => some ("image_process_error: ".data ++ m)
    | ImageOutcome.ok => none
  | MediaType.video =>
    match env.vid with
    | VideoOutcome.openFail => some "video_open_error".data
    | VideoOutcome.readFail => some "read_first_frame_error".data
    | VideoOutcome.exc m => some ("first_frame_error: ".data ++ m)
    | VideoOutcome.ok => none

/-- Stages of `process_url` from the download on (source lines 196-247):
download to the scoped temp dir, persist `media_type.txt`, run the frame
stage, then the embedding call whose success writes `first_frame.npy`.
Note the source returns `num_frames = 1` on `embed_error` (line 245). -/
def afterFetch (env : Env) (jid : List Char) (url : List Char)
    (fs : JobFS) (tr : List Ev) : RowResult × JobFS × List Ev :=
  match download_file env.net url with
  | ⟨_, some e, _⟩ => (⟨jid, 0, some ("download_error: ".data ++ e)⟩, fs, tr)
  | ⟨mt, none, _⟩ =>
    match frameStage env mt with
    | some e =>
      (⟨jid, 0, some e⟩, { fs with media_type_txt := some mt }, tr ++ [Ev.writeMediaType])
    | none =>
      match env.emb with
      | EmbedOutcome.exc m =>
        (⟨jid, 1, some ("embed_error: ".data ++ m)⟩,
         { fs with media_type_txt := some mt }, tr ++ [Ev.writeMediaType])
      | EmbedOutcome.ok b =>
        (⟨jid, 1, none⟩,
         { fs with media_type_txt := some mt, first_frame_npy := some b },
         tr ++ [Ev.writeMediaType, Ev.writeEmbed])

/-- `process_url(index, row_data, url_column, out_root, overwrite)`
(source lines 124-247), returning the result triple, the final state of
this job's directory, and the event trace.  Mirrors the source order:
empty URL returns before `ensure_dir`; then directory creation, the
overwrite cleanup, the provenance writes (`url.txt`, `metadata.txt`),
and only then the download and later stages. -/
def process_url (env : Env) (i : Nat) (row : Row) (col : Option (List Char))
    (overwrite : Bool) (fs0 : JobFS) : RowResult × JobFS × List Ev :=
  let url := pickUrl row col
  if url.isEmpty then (⟨jobId i, 0, some "no_url_in_row".data⟩, fs0, [])
  else
    let fs1 : JobFS := { fs0 with dirCreated := true }
    let fs2 : JobFS := if overwrite then clearArtifacts fs1 else fs1
    let tr0 : List Ev :=
      if overwrite then
        [Ev.mkdir, Ev.removeEmbed, Ev.removeUrl, Ev.removeMeta, Ev.removeMediaType]
      else [Ev.mkdir]
    let fs4 : JobFS := { fs2 with url_txt := some url, metadata_txt := some (metaLines row col) }
    afterFetch env (jobId i) url fs4 (tr0 ++ [Ev.writeUrl, Ev.writeMeta, Ev.downloadStart])

/-- The command-line parameters of `main` that matter to the batch run
(source lines 251-258).  `stop` is the `--end` argument (`none` when
unset). -/
structure Args where
  column : Option (List Char)
  start : Int
  stop : Option Int
  overwrite : Bool

/-- How `main` terminates: `exited c` is `sys.exit(c)` before the loop,
`summary ok fail` is running to completion (implicit exit code 0) with
the printed `OK=ok, FAIL=fail` counts. -/
inductive MainResult
  | exited (code : Nat)
  | summary (ok : Nat) (fail : Nat)
deriving DecidableEq

/-- Resolution of the end bound (source lines 268-271):
`end = len(rows)` when `--end` is unset or exceeds the row count. -/
def resolveEnd (n : Nat) (stop : Option Int) : Int :=
  match stop with
  | none => (n : Int)
  | some v => if v > (n : Int) then (n : Int) else v

/-- Resolution of the start bound (source line 272): `max(0, start)`. -/
def resolveStart (s : Int) : Int := max 0 s

/-- `main()` (source lines 250-292): missing input is a fatal exit 1;
rows are read and filtered by `read_urls`; a resolved `start >= end` is
a fatal exit 1 before the loop; otherwise every index in `[start, end)`
is processed and the success/failure counts are reported.  `envs i` and
`fss i` are the external environment and the prior job-directory state
for row index `i`.  Also returns the list of per-row results, empty on
the fatal paths (no row is processed before a fatal exit). -/
def mainRun (inputExists : Bool) (raws : List Row) (a : Args)
    (envs : Nat → Env) (fss : Nat → JobFS) : MainResult × List RowResult :=
  if !inputExists then (MainResult.exited 1, [])
  else
    let rows := read_urls raws a.column
    let e := resolveEnd rows.length a.stop
    let s := resolveStart a.start
    if s ≥ e then (MainResult.exited 1, [])
    else
      let idxs := (List.range (e - s).toNat).map (fun k => s.toNat + k)
      let results := idxs.map
        (fun i => (process_url (envs i) i (rows.getD i []) a.column a.overwrite (fss i)).1)
      (MainResult.summary
        (results.countP (fun r => r.err.isNone))
        (results.countP (fun r => r.err.isSome)), results)

/-- Helper: `afterFetch` never touches `url.txt` or `metadata.txt`, only
appends `writeMediaType` / `writeEmbed` events to the trace, and leaves
`first_frame.npy` untouched whenever it reports an error. -/
theorem afterFetch_shape (env : Env) (jid url : List Char) (fs : JobFS) (tr : List Ev) :
    (afterFetch env jid url fs tr).2.1.url_txt = fs.url_txt
    ∧ (afterFetch env jid url fs tr).2.1.metadata_txt = fs.metadata_txt
    ∧ (∃ suf, (afterFetch env jid url fs tr).2.2 = tr ++ suf
        ∧ ∀ x ∈ suf, x = Ev.writeMediaType ∨ x = Ev.writeEmbed)
    ∧ ((afterFetch env jid url fs tr).1.err.isSome = true →
        (afterFetch env jid url fs tr).2.1.first_frame_npy = fs.first_frame_npy) := by
  unfold afterFetch
  rcases hd : download_file env.net url with ⟨mt, err, w⟩
  cases err with
  | some e =>
    exact ⟨rfl, rfl, ⟨[], by simp, by simp⟩, fun _ => rfl⟩
  | none =>
    cases hf : frameStage env mt with
    | some e =>
      refine ⟨by simp [hf], by simp [hf], ⟨[Ev.writeMediaType], by simp [hf], by simp⟩,
        by simp [hf]⟩
    | none =>
      cases hemb : env.emb with
      | exc m =>
        refine ⟨by simp [hf, hemb], by simp [hf, hemb],
          ⟨[Ev.writeMediaType], by simp [hf, hemb], by simp⟩, by simp [hf, hemb]⟩
      | ok b =>
        refine ⟨by simp [hf, hemb], by simp [hf, hemb],
          ⟨[Ev.writeMediaType, Ev.writeEmbed], by simp [hf, hemb], by simp⟩,
          by simp [hf, hemb]⟩

/-- Helper: when the download fails, `afterFetch` returns the tagged
`download_error` reason and changes nothing. -/
theorem afterFetch_download_error (env : Env) (jid url : List Char)
    (fs : JobFS) (tr : List Ev) (m : List Char)
    (h : (download_file env.net url).error = some m) :
    afterFetch env jid url fs tr
      = (⟨jid, 0, some ("download_error: ".data ++ m)⟩, fs, tr) := by
  unfold afterFetch
  rcases hd : download_file env.net url with ⟨mt, err, w⟩
  rw [hd] at h
  cases err with
  | some e => simp at h; simp [h]
  | none => simp at h

/-- Helper: when the download succeeds, `media_type.txt` is persisted
with exactly the media type the download settled on. -/
theorem afterFetch_media_type (env : Env) (jid url : List Char)
    (fs : JobFS) (tr : List Ev)
    (h : (download_file env.net url).error = none) :
    (afterFetch env jid url fs tr).2.1.media_type_txt
      = some ((download_file env.net url).mediaType) := by
  unfold afterFetch
  rcases hd : download_file env.net url with ⟨mt, err, w⟩
  rw [hd] at h
  cases err with
  | some e => simp at h
  | none =>
    cases hf : frameStage env mt with
    | some e => simp [hf]
    | none =>
      cases hemb : env.emb with
      | exc m => simp [hf, hemb]
      | ok b => simp [hf, hemb]

/-- Helper: on a fully successful run with embedding bytes `b`, the
persisted `first_frame.npy` holds exactly `b`. -/
theorem afterFetch_success_npy (env : Env) (jid url : List Char)
    (fs : JobFS) (tr : List Ev) (b : List Nat)
    (hemb : env.emb = EmbedOutcome.ok b)
    (h : (afterFetch env jid url fs tr).1.err = none) :
    (afterFetch env jid url fs tr).2.1.first_frame_npy = some b := by
  unfold afterFetch at *
  rcases hd : download_file env.net url with ⟨mt, err, w⟩
  rw [hd] at h
  cases err with
  | some e => simp at h
  | none =>
    cases hf : frameStage env mt with
    | some e => simp [hf] at h
    | none =>
      simp [hf, hemb] at h ⊢

/-- C1: the claim says that on a primary-transport exception the fetch
falls back to a secondary minimal transport, and only when that also
fails does it return the classifier's offline guess plus the error.
The code violates this: the `except` clause of the requests attempt
returns immediately, so with the primary transport raising "timeout" on
`http://e/v.mp4`, `download_file` returns the offline guess `video`
paired with the error both when the secondary transport would fail and
when it would succeed with body `[5]` — the urllib fallback block
(source lines 108-121), documented by the code's own comments, is
unreachable. -/
theorem c1_secondary_transport_unreachable :
    download_file ⟨none, PrimaryResult.exc "timeout".data, none⟩ "http://e/v.mp4".data
      = ⟨MediaType.video, some "timeout".data, none⟩
    ∧ download_file ⟨none, PrimaryResult.exc "timeout".data, some [5]⟩ "http://e/v.mp4".data
      = ⟨MediaType.video, some "timeout".data, none⟩ := ⟨rfl, rfl⟩

/-- C6: classification and fetch are total: `detect_media_type` always
returns `image` or `video`; a probe failure (exception) with no
extension match yields the fallback `video`; an ambiguous content-type
with no extension match yields the fallback `video`; and any
primary-transport exception makes `download_file` return the offline
classifier guess paired with the error string — never an exception. -/
theorem c6_never_raises (probe : Option (List Char)) (url : List Char)
    (net : Net) (ct : List Char) :
    (detect_media_type probe url = MediaType.image
      ∨ detect_media_type probe url = MediaType.video)
    ∧ (probeReached url = true → detect_media_type none url = MediaType.video)
    ∧ (probeReached url = true → imageToken (lowerStr ct) = false →
        videoToken (lowerStr ct) = false →
        detect_media_type (some ct) url = MediaType.video)
    ∧ (∀ m, net.primary = PrimaryResult.exc m →
        download_file net url = ⟨detect_media_type net.probe url, some m, none⟩) := by
  refine ⟨?_, ?_, ?_, ?_⟩
  · cases h : detect_media_type probe url
    · exact Or.inl rfl
    · exact Or.inr rfl
  · intro h
    unfold probeReached at h
    simp only [Bool.and_eq_true, Bool.not_eq_true'] at h
    unfold detect_media_type
    simp [h.1, h.2]
  · intro h hI hV
    unfold probeReached at h
    simp only [Bool.and_eq_true, Bool.not_eq_true'] at h
    unfold detect_media_type
    simp [h.1, h.2, hI, hV]
  · intro m hm
    simp [download_file, hm]

/-- Witness for C6: a URL with no recognized extension, a failing probe,
an ambiguous content-type, and a failing primary transport all resolve
to the documented fallback values. -/
theorem c6_never_raises_witness :
    detect_media_type none "http://e/x".data = MediaType.video
    ∧ detect_media_type (some "weird".data) "http://e/x".data = MediaType.video
    ∧ download_file ⟨none, PrimaryResult.exc "boom".data, none⟩ "http://e/x".data
        = ⟨detect_media_type none "http://e/x".data, some "boom".data, none⟩ := by
  refine ⟨?_, ?_, ?_⟩
  · exact (c6_never_raises none "http://e/x".data
      ⟨none, PrimaryResult.exc "boom".data, none⟩ "weird".data).2.1 (by decide)
  · exact (c6_never_raises none "http://e/x".data
      ⟨none, PrimaryResult.exc "boom".data, none⟩ "weird".data).2.2.1
      (by decide) (by decide) (by decide)
  · exact (c6_never_raises none "http://e/x".data
      ⟨none, PrimaryResult.exc "boom".data, none⟩ "weird".data).2.2.2 "boom".data rfl

/-- C8 counterexample: the claim says every URL whose path contains a
recognized video extension classifies as `video` without a probe; but
`http://e/a.jpg.mp4` contains the video extension `.mp4` in its path and
classifies as `image` without reaching the probe, because the image
extension check runs first in the source. -/
theorem c8_video_ext_counterexample :
    extHit videoExts (pathPart "http://e/a.jpg.mp4".data) = true
    ∧ detect_media_type none "http://e/a.jpg.mp4".data = MediaType.image
    ∧ probeReached "http://e/a.jpg.mp4".data = false := by decide

/-- C8 amended: a URL whose path contains a recognized image extension
classifies as `image` without reaching the probe; a URL whose path
contains a recognized video extension AND NO image extension classifies
as `video` without reaching the probe.  The image check has priority. -/
theorem c8_amended_ext_priority (url : List Char) (p : Option (List Char)) :
    (extHit imageExts (pathPart url) = true →
      detect_media_type p url = MediaType.image ∧ probeReached url = false)
    ∧ (extHit imageExts (pathPart url) = false →
      extHit videoExts (pathPart url) = true →
      detect_media_type p url = MediaType.video ∧ probeReached url = false) := by
  constructor
  · intro h
    refine ⟨?_, ?_⟩
    · unfold detect_media_type; simp [h]
    · unfold probeReached; simp [h]
  · intro hI hV
    refine ⟨?_, ?_⟩
    · unfold detect_media_type; simp [hI, hV]
    · unfold probeReached; simp [hI, hV]

/-- Witness for the amended C8 at concrete URLs with an image and a
video extension. -/
theorem c8_amended_ext_priority_witness :
    (detect_media_type none "http://e/a.jpg".data = MediaType.image
      ∧ probeReached "http://e/a.jpg".data = false)
    ∧ (detect_media_type none "http://e/v.mp4".data = MediaType.video
      ∧ probeReached "http://e/v.mp4".data = false) :=
  ⟨(c8_amended_ext_priority "http://e/a.jpg".data none).1 (by decide),
   (c8_amended_ext_priority "http://e/v.mp4".data none).2 (by decide) (by decide)⟩

/-- Helper: with a non-empty URL, `process_url` is `afterFetch` applied
to the provenance-written job state and the corresponding trace. -/
theorem process_url_eq (env : Env) (i : Nat) (row : Row) (col : Option (List Char))
    (ow : Bool) (fs0 : JobFS) (h : (pickUrl row col).isEmpty = false) :
    process_url env i row col ow fs0
      = afterFetch env (jobId i) (pickUrl row col)
          { (if ow then clearArtifacts { fs0 with dirCreated := true }
             else { fs0 with dirCreated := true }) with
            url_txt := some (pickUrl row col),
            metadata_txt := some (metaLines row col) }
          ((if ow then
              [Ev.mkdir, Ev.removeEmbed, Ev.removeUrl, Ev.removeMeta, Ev.removeMediaType]
            else [Ev.mkdir]) ++ [Ev.writeUrl, Ev.writeMeta, Ev.downloadStart]) := by
  unfold process_url
  simp [h]

/-- Concrete fixtures for witnesses and counterexamples. -/
def colTvc : Option (List Char) := some "tvc".data

def rowGood : Row := [("tvc".data, "http://e/v.mp4".data), ("id".data, "7".data)]

def rowEmptyUrl : Row := [("tvc".data, "".data)]

def netOk : Net := ⟨none, PrimaryResult.ok "video/mp4".data [7], none⟩

def netFail : Net := ⟨none, PrimaryResult.exc "boom".data, none⟩

def envOk : Env := ⟨netOk, ImageOutcome.ok, VideoOutcome.ok, EmbedOutcome.ok [2]⟩

def envFail : Env := ⟨netFail, ImageOutcome.ok, VideoOutcome.ok, EmbedOutcome.ok [2]⟩

def fsEmpty : JobFS := ⟨false, none, none, none, none⟩

def fsComplete : JobFS :=
  ⟨true, some "http://e/v.mp4".data, some [("id".data, "7".data)],
   some MediaType.video, some [1]⟩

def argsDflt : Args := ⟨colTvc, 0, none, false⟩

/-- C4: whenever a fetch is attempted (the URL cell is non-empty), the
final job state contains `url.txt` with the source URL and a
`metadata.txt`, and in the event trace the two provenance writes occur
immediately before `downloadStart`, preceded only by directory creation
and overwrite removals — so both artifacts exist no matter how any
later stage of the row fails. -/
theorem c4_provenance_before_download (env : Env) (i : Nat) (row : Row)
    (col : Option (List Char)) (ow : Bool) (fs0 : JobFS)
    (h : (pickUrl row col).isEmpty = false) :
    (process_url env i row col ow fs0).2.1.url_txt = some (pickUrl row col)
    ∧ ((process_url env i row col ow fs0).2.1.metadata_txt).isSome = true
    ∧ ∃ pre suf, (process_url env i row col ow fs0).2.2
        = pre ++ [Ev.writeUrl, Ev.writeMeta, Ev.downloadStart] ++ suf
        ∧ (∀ x ∈ pre, x = Ev.mkdir ∨ x = Ev.removeEmbed ∨ x = Ev.removeUrl
            ∨ x = Ev.removeMeta ∨ x = Ev.removeMediaType)
        ∧ Ev.downloadStart ∉ pre := by
  rw [process_url_eq env i row col ow fs0 h]
  obtain ⟨h1, h2, ⟨suf, hsuf, _⟩, _⟩ := afterFetch_shape env (jobId i) (pickUrl row col)
    { (if ow then clearArtifacts { fs0 with dirCreated := true }
       else { fs0 with dirCreated := true }) with
      url_txt := some (pickUrl row col),
      metadata_txt := some (metaLines row col) }
    ((if ow then
        [Ev.mkdir, Ev.removeEmbed, Ev.removeUrl, Ev.removeMeta, Ev.removeMediaType]
      else [Ev.mkdir]) ++ [Ev.writeUrl, Ev.writeMeta, Ev.downloadStart])
  refine ⟨by rw [h1], by rw [h2]; rfl, ?_⟩
  refine ⟨(if ow then
      [Ev.mkdir, Ev.removeEmbed, Ev.removeUrl, Ev.removeMeta, Ev.removeMediaType]
    else [Ev.mkdir]), suf, ?_, ?_, ?_⟩
  · rw [hsuf]
  · cases ow <;> simp
  · cases ow <;> simp

/-- Witness for C4 at a concrete row with a non-empty URL. -/
theorem c4_provenance_before_download_witness :
    (process_url envOk 0 rowGood colTvc false fsEmpty).2.1.url_txt
      = some (pickUrl rowGood colTvc)
    ∧ ((process_url envOk 0 rowGood colTvc false fsEmpty).2.1.metadata_txt).isSome = true
    ∧ ∃ pre suf, (process_url envOk 0 rowGood colTvc false fsEmpty).2.2
        = pre ++ [Ev.writeUrl, Ev.writeMeta, Ev.downloadStart] ++ suf
        ∧ (∀ x ∈ pre, x = Ev.mkdir ∨ x = Ev.removeEmbed ∨ x = Ev.removeUrl
            ∨ x = Ev.removeMeta ∨ x = Ev.removeMediaType)
        ∧ Ev.downloadStart ∉ pre :=
  c4_provenance_before_download envOk 0 rowGood colTvc false fsEmpty (by decide)

/-- C2 counterexample: job `url_0000` is complete with embedding bytes
`[1]`; re-running the same row without the overwrite flag, with the
fetch and the embedding call succeeding and producing bytes `[2]`,
terminates without error and mutates the persisted embedding artifact
from `[1]` to `[2]` — the run is NOT a no-op on an existing complete
job. -/
theorem c2_rerun_mutates_embedding :
    fsComplete.first_frame_npy = some [1]
    ∧ (process_url envOk 0 rowGood colTvc false fsComplete).1.err = none
    ∧ (process_url envOk 0 rowGood colTvc false fsComplete).2.1.first_frame_npy
        = some [2] := by decide

/-- C2 amended: without overwrite, an existing complete job is NOT
skipped: `process_url` re-runs the whole pipeline and, whenever the
rerun succeeds with embedding bytes `b`, rewrites `first_frame.npy`
with `b` — so the prior embedding bytes survive only when the rerun
reproduces them exactly. -/
theorem c2_amended_rerun_rewrites (env : Env) (i : Nat) (row : Row)
    (col : Option (List Char)) (fs0 : JobFS) (b : List Nat)
    (hemb : env.emb = EmbedOutcome.ok b)
    (hsucc : (process_url env i row col false fs0).1.err = none) :
    (process_url env i row col false fs0).2.1.first_frame_npy = some b := by
  cases hb : (pickUrl row col).isEmpty with
  | true => simp [process_url, hb] at hsucc
  | false =>
    rw [process_url_eq env i row col false fs0 hb] at hsucc ⊢
    exact afterFetch_success_npy _ _ _ _ _ _ hemb hsucc

/-- Witness for the amended C2: the concrete rerun of a complete job
ends holding exactly the rerun's bytes `[2]`. -/
theorem c2_amended_rerun_rewrites_witness :
    (process_url envOk 0 rowGood colTvc false fsComplete).2.1.first_frame_npy
      = some [2] :=
  c2_amended_rerun_rewrites envOk 0 rowGood colTvc fsComplete [2] rfl (by decide)

/-- C3 counterexample: a batch whose input holds an empty-URL row and a
good row: `read_urls` silently drops the empty-URL row during reading,
and the run reports one success and ZERO failures — the empty-URL row
is never processed and never counted as a failed row, contradicting
the claimed `no_url_in_row` per-row failure. -/
theorem c3_empty_url_not_counted :
    read_urls [rowEmptyUrl] colTvc = []
    ∧ (mainRun true [rowEmptyUrl, rowGood] argsDflt
        (fun _ => envOk) (fun _ => fsEmpty)).1 = MainResult.summary 1 0 := by decide

/-- C3 amended: a row with an empty URL cell is filtered out by
`read_urls` and never reaches `process_url` through the batch, so it is
not counted at all; invoked directly on such a row, `process_url`
returns the non-fatal `no_url_in_row` failure before creating the job
directory or touching any artifact (state unchanged, empty trace). -/
theorem c3_amended_empty_url_filtered (env : Env) (i : Nat) (row : Row)
    (col : Option (List Char)) (ow : Bool) (fs0 : JobFS)
    (h : (pickUrl row col).isEmpty = true) :
    read_urls [row] col = []
    ∧ process_url env i row col ow fs0
        = (⟨jobId i, 0, some "no_url_in_row".data⟩, fs0, []) := by
  constructor
  · simp [read_urls, h]
  · simp [process_url, h]

/-- Witness for the amended C3 at a concrete empty-URL row. -/
theorem c3_amended_empty_url_filtered_witness :
    read_urls [rowEmptyUrl] colTvc = []
    ∧ process_url envOk 5 rowEmptyUrl colTvc false fsEmpty
        = (⟨jobId 5, 0, some "no_url_in_row".data⟩, fsEmpty, []) :=
  c3_amended_empty_url_filtered envOk 5 rowEmptyUrl colTvc false fsEmpty (by decide)

/-- C5: with the overwrite flag set, the first five trace events are the
directory creation followed by the removal of all four prior artifacts
(`first_frame.npy`, `url.txt`, `metadata.txt`, `media_type.txt`), before
any write of this run; if the rerun fails at any stage, no embedding
artifact is present (none rather than a stale one); and the final job
state is independent of whatever was on disk before — no mixed old/new
state. -/
theorem c5_overwrite_clears_all_first (env : Env) (i : Nat) (row : Row)
    (col : Option (List Char)) (fs0 fs1 : JobFS)
    (h : (pickUrl row col).isEmpty = false) :
    (process_url env i row col true fs0).2.2.take 5
      = [Ev.mkdir, Ev.removeEmbed, Ev.removeUrl, Ev.removeMeta, Ev.removeMediaType]
    ∧ ((process_url env i row col true fs0).1.err.isSome = true →
        (process_url env i row col true fs0).2.1.first_frame_npy = none)
    ∧ (process_url env i row col true fs0).2.1
        = (process_url env i row col true fs1).2.1 := by
  obtain ⟨_, _, ⟨suf, hsuf, _⟩, h4⟩ := afterFetch_shape env (jobId i) (pickUrl row col)
    { (if true then clearArtifacts { fs0 with dirCreated := true }
       else { fs0 with dirCreated := true }) with
      url_txt := some (pickUrl row col),
      metadata_txt := some (metaLines row col) }
    ((if true then
        [Ev.mkdir, Ev.removeEmbed, Ev.removeUrl, Ev.removeMeta, Ev.removeMediaType]
      else [Ev.mkdir]) ++ [Ev.writeUrl, Ev.writeMeta, Ev.downloadStart])
  rw [process_url_eq env i row col true fs0 h, process_url_eq env i row col true fs1 h]
  refine ⟨?_, fun he => ?_, ?_⟩
  · rw [hsuf]; rfl
  · exact h4 he
  · rfl

/-- Witness for C5: overwriting a previously complete job with a failing
download leaves no embedding artifact and matches a fresh-directory
run. -/
theorem c5_overwrite_clears_all_first_witness :
    (process_url envFail 0 rowGood colTvc true fsComplete).2.2.take 5
      = [Ev.mkdir, Ev.removeEmbed, Ev.removeUrl, Ev.removeMeta, Ev.removeMediaType]
    ∧ (process_url envFail 0 rowGood colTvc true fsComplete).2.1.first_frame_npy = none
    ∧ (process_url envFail 0 rowGood colTvc true fsComplete).2.1
        = (process_url envFail 0 rowGood colTvc true fsEmpty).2.1 :=
  ⟨(c5_overwrite_clears_all_first envFail 0 rowGood colTvc fsComplete fsEmpty (by decide)).1,
   (c5_overwrite_clears_all_first envFail 0 rowGood colTvc fsComplete fsEmpty (by decide)).2.1
     (by decide),
   (c5_overwrite_clears_all_first envFail 0 rowGood colTvc fsComplete fsEmpty (by decide)).2.2⟩

/-- C7: on a successful fetch, the persisted `media_type.txt` equals the
type derived from the transport's Content-Type header — `image` when it
holds an image token, else `video` when it holds a video token — and
otherwise the classifier guess `detect_media_type` on the URL. -/
theorem c7_media_type_persisted (env : Env) (i : Nat) (row : Row)
    (col : Option (List Char)) (ow : Bool) (fs0 : JobFS)
    (ct : List Char) (body : List Nat)
    (h : (pickUrl row col).isEmpty = false)
    (hp : env.net.primary = PrimaryResult.ok ct body) :
    (process_url env i row col ow fs0).2.1.media_type_txt
      = some (if imageToken (lowerStr ct) then MediaType.image
              else if videoToken (lowerStr ct) then MediaType.video
              else detect_media_type env.net.probe (pickUrl row col)) := by
  have hdl : download_file env.net (pickUrl row col)
      = ⟨(if imageToken (lowerStr ct) then MediaType.image
          else if videoToken (lowerStr ct) then MediaType.video
          else detect_media_type env.net.probe (pickUrl row col)), none, some body⟩ := by
    simp [download_file, hp]
  have herr : (download_file env.net (pickUrl row col)).error = none := by rw [hdl]
  rw [process_url_eq env i row col ow fs0 h]
  rw [afterFetch_media_type _ _ _ _ _ herr, hdl]

/-- Witness for C7 at a concrete fetch answering `video/mp4`. -/
theorem c7_media_type_persisted_witness :
    (process_url envOk 0 rowGood colTvc false fsEmpty).2.1.media_type_txt
      = some (if imageToken (lowerStr "video/mp4".data) then MediaType.image
              else if videoToken (lowerStr "video/mp4".data) then MediaType.video
              else detect_media_type envOk.net.probe (pickUrl rowGood colTvc)) :=
  c7_media_type_persisted envOk 0 rowGood colTvc false fsEmpty
    "video/mp4".data [7] (by decide) rfl

/-- Helper: successes and failures partition the per-row results. -/
theorem countP_err_split (l : List RowResult) :
    l.countP (fun r => r.err.isNone) + l.countP (fun r => r.err.isSome) = l.length := by
  induction l with
  | nil => rfl
  | cons a t ih =>
    cases ha : a.err <;> simp [List.countP_cons, ha] <;> omega

/-- C9: with the input present, a resolved `start >= end` (in particular,
an empty resolved row set) makes the run exit with code 1 having
processed no row; otherwise the run terminates with the summary (exit
code 0) whose success and failure counts add up to exactly the number of
rows in the requested range — per-row failures never change the exit
path. -/
theorem c9_range_validation (raws : List Row) (a : Args)
    (envs : Nat → Env) (fss : Nat → JobFS) :
    (resolveStart a.start ≥ resolveEnd (read_urls raws a.column).length a.stop →
      mainRun true raws a envs fss = (MainResult.exited 1, []))
    ∧ (resolveStart a.start < resolveEnd (read_urls raws a.column).length a.stop →
      ∃ ok fail, (mainRun true raws a envs fss).1 = MainResult.summary ok fail
        ∧ ok + fail
            = (resolveEnd (read_urls raws a.column).length a.stop
                - resolveStart a.start).toNat) := by
  constructor
  · intro hge
    simp [mainRun, hge]
  · intro hlt
    have hnge : ¬ (resolveStart a.start
        ≥ resolveEnd (read_urls raws a.column).length a.stop) := not_le.mpr hlt
    simp only [mainRun, Bool.not_true, Bool.false_eq_true, if_false, if_neg hnge]
    refine ⟨_, _, rfl, ?_⟩
    rw [countP_err_split]
    simp

/-- Witness for C9: an empty input is a fatal exit 1, and a one-row run
whose single row fails its download still ends in a summary with
counts adding to one. -/
theorem c9_range_validation_witness :
    mainRun true [] argsDflt (fun _ => envOk) (fun _ => fsEmpty)
      = (MainResult.exited 1, [])
    ∧ (mainRun true [rowGood] argsDflt (fun _ => envFail) (fun _ => fsEmpty)).1
      = MainResult.summary 0 1 := by
  refine ⟨(c9_range_validation [] argsDflt (fun _ => envOk) (fun _ => fsEmpty)).1
    (by decide), ?_⟩
  decide

/-- C10 counterexample: the claim says a failed download leaves the job
directory with ONLY `url.txt` and `metadata.txt`; but re-running an
already-complete job without overwrite, with the download failing,
returns the `download_error` reason while the OLD `media_type.txt` and
the OLD embedding artifact are still in place. -/
theorem c10_stale_artifacts_counterexample :
    (process_url envFail 0 rowGood colTvc false fsComplete).1.err
      = some "download_error: boom".data
    ∧ (process_url envFail 0 rowGood colTvc false fsComplete).2.1.media_type_txt
      = some MediaType.video
    ∧ (process_url envFail 0 rowGood colTvc false fsComplete).2.1.first_frame_npy
      = some [1] := by decide

/-- C10 amended: when the download fails, `process_url` returns the
`download_error` reason without ever writing `media_type.txt` (no
`writeMediaType` event occurs), with `url.txt` and `metadata.txt`
written; and provided the job held no prior `media_type.txt` or
embedding artifact (fresh directory, or the overwrite flag set), the
directory ends with only those two artifacts — no `media_type.txt` and
no embedding artifact. -/
theorem c10_amended_download_error_state (env : Env) (i : Nat) (row : Row)
    (col : Option (List Char)) (ow : Bool) (fs0 : JobFS) (m : List Char)
    (h : (pickUrl row col).isEmpty = false)
    (hm : env.net.primary = PrimaryResult.exc m)
    (hclean : ow = true ∨ (fs0.media_type_txt = none ∧ fs0.first_frame_npy = none)) :
    (process_url env i row col ow fs0).1.err = some ("download_error: ".data ++ m)
    ∧ (process_url env i row col ow fs0).2.1.url_txt = some (pickUrl row col)
    ∧ ((process_url env i row col ow fs0).2.1.metadata_txt).isSome = true
    ∧ (process_url env i row col ow fs0).2.1.media_type_txt = none
    ∧ (process_url env i row col ow fs0).2.1.first_frame_npy = none
    ∧ Ev.writeMediaType ∉ (process_url env i row col ow fs0).2.2 := by
  have herr : (download_file env.net (pickUrl row col)).error = some m := by
    simp [download_file, hm]
  rw [process_url_eq env i row col ow fs0 h]
  rw [afterFetch_download_error _ _ _ _ _ _ herr]
  cases ow with
  | false =>
    rcases hclean with hc | hc
    · exact absurd hc (by simp)
    · exact ⟨rfl, rfl, rfl, hc.1, hc.2, by simp⟩
  | true =>
    exact ⟨rfl, rfl, rfl, rfl, rfl, by simp⟩

/-- Witness for the amended C10 on a fresh job directory. -/
theorem c10_amended_download_error_state_witness :
    (process_url envFail 0 rowGood colTvc false fsEmpty).1.err
      = some ("download_error: ".data ++ "boom".data)
    ∧ (process_url envFail 0 rowGood colTvc false fsEmpty).2.1.url_txt
      = some (pickUrl rowGood colTvc)
    ∧ ((process_url envFail 0 rowGood colTvc false fsEmpty).2.1.metadata_txt).isSome = true
    ∧ (process_url envFail 0 rowGood colTvc false fsEmpty).2.1.media_type_txt = none
    ∧ (process_url envFail 0 rowGood colTvc false fsEmpty).2.1.first_frame_npy = none
    ∧ Ev.writeMediaType ∉ (process_url envFail 0 rowGood colTvc false fsEmpty).2.2 :=
  c10_amended_download_error_state envFail 0 rowGood colTvc false fsEmpty
    "boom".data (by decide) rfl (Or.inr ⟨rfl, rfl⟩)

end CheckTvc
